import Mathlib

/-!
Verification of the drug-discovery orchestrator (`orchestrator/main.py` and
`orchestrator/esmfold_integration.py`) against its natural-language
specification.  Python floats are modelled as rationals, Python dicts as
association lists with leftmost-wins lookup, and the external effects
(HTTP services, RDKit, the random generator) as explicit oracle inputs.
-/

namespace Ultrathink

/-- Python runtime values, shallowly embedded.  Floats are rationals. -/
inductive PyVal where
  | int (n : ℤ)
  | num (q : ℚ)
  | str (s : String)
  | bool (b : Bool)
  | none
  | list (l : List PyVal)
  | dict (d : List (String × PyVal))

/-- A Python dict: association list, leftmost binding wins. -/
abbrev PyDict := List (String × PyVal)

/-- Dict lookup, `d.get(k)` returning `None` as `Option.none`. -/
def dget (d : PyDict) (k : String) : Option PyVal :=
  (d.find? (fun p => p.1 == k)).map (fun p => p.2)

/-- Dict lookup with default, `d.get(k, v)`. -/
def dgetD (d : PyDict) (k : String) (v : PyVal) : PyVal :=
  (dget d k).getD v

/-- Dict update `d[k] = v`. -/
def dinsert (d : PyDict) (k : String) (v : PyVal) : PyDict :=
  (k, v) :: d

/-- Python double-splat merge: entries of `b` override entries of `a`. -/
def dmerge (a b : PyDict) : PyDict :=
  b ++ a

/-- The only exception kind the ranking code can raise in our model. -/
inductive PyErr where
  | typeError
deriving DecidableEq

/-- Python `len`, raising `TypeError` on non-sized values such as integers. -/
def pyLen : PyVal → Except PyErr ℤ
  | .str s => .ok s.length
  | .list l => .ok l.length
  | .dict d => .ok d.length
  | _ => .error .typeError

/-- Reading a value as a number for arithmetic; Python raises `TypeError`
when a non-numeric value meets `*` or `+` with a float. -/
def toNum : PyVal → Except PyErr ℚ
  | .int n => .ok (n : ℚ)
  | .num q => .ok q
  | .bool b => .ok (if b then 1 else 0)
  | _ => .error .typeError

/-- Python `round(x, n)` over the rationals. -/
def pyRound (x : ℚ) (n : ℕ) : ℚ :=
  (round (x * 10 ^ n) : ℤ) / 10 ^ n

/-- The RDKit-computed molecular descriptors consumed by
`calculate_advanced_admet`.  RDKit is an external library, so a parsed
molecule is modelled by the descriptor values RDKit would report for it;
`sa_score` stands for the result of `calculate_synthetic_accessibility`. -/
structure Descriptors where
  mw : ℚ
  logp : ℚ
  hbd : ℕ
  hba : ℕ
  tpsa : ℚ
  rotatable_bonds : ℕ
  aromatic_rings : ℕ
  qed : ℚ
  molar_refractivity : ℚ
  heavy_atoms : ℕ
  sa_score : ℚ

/-- The dict returned by `calculate_advanced_admet` on its success path,
field for field. -/
structure AdmetProps where
  molecular_weight : ℚ
  logp : ℚ
  hbd : ℕ
  hba : ℕ
  tpsa : ℚ
  rotatable_bonds : ℕ
  aromatic_rings : ℕ
  molar_refractivity : ℚ
  heavy_atoms : ℕ
  qed : ℚ
  lipinski_violations : ℕ
  lipinski_pass : Bool
  bioavailability_score : ℚ
  bbb_penetration : Bool
  gi_absorption_high : Bool
  potential_toxicity : Bool
  admet_score : ℚ
  synthetic_accessibility : ℚ

/-- The `lipinski_violations` counter of `calculate_advanced_admet`
(`orchestrator/main.py`, lines 426-434). -/
def lipinskiViolations (d : Descriptors) : ℕ :=
  (if d.mw > 500 then 1 else 0) + (if d.logp > 5 then 1 else 0) +
  (if d.hbd > 5 then 1 else 0) + (if d.hba > 10 then 1 else 0)

/-- The `bioavailability` accumulator of `calculate_advanced_admet` before
clamping (`orchestrator/main.py`, lines 440-450): start at 1.0 and apply the
five conditional deductions in source order. -/
def bioavailabilityRaw (d : Descriptors) : ℚ :=
  let bio1 : ℚ := 1
  let bio2 : ℚ := if d.mw > 400 then bio1 - 15/100 else bio1
  let bio3 : ℚ := if d.tpsa < 20 ∨ d.tpsa > 130 then bio2 - 15/100 else bio2
  let bio4 : ℚ := if d.logp < 0 ∨ d.logp > 5 then bio3 - 1/10 else bio3
  let bio5 : ℚ := if d.hbd > 5 then bio4 - 1/10 else bio4
  if d.hba > 10 then bio5 - 1/10 else bio5

/-- The clamped `bioavailability` of `calculate_advanced_admet`
(`orchestrator/main.py`, line 452). -/
def bioavailabilityScore (d : Descriptors) : ℚ :=
  max 0 (min 1 (bioavailabilityRaw d))

/-- The `admet_score` composite of `calculate_advanced_admet` before
clamping (`orchestrator/main.py`, lines 468-472). -/
def admetScoreRaw (d : Descriptors) : ℚ :=
  (1 - (lipinskiViolations d : ℚ) * (2/10)) * (4/10) +
  bioavailabilityScore d * (3/10) + d.qed * (3/10)

/-- The clamped `admet_score` (`orchestrator/main.py`, line 473). -/
def admetScoreClamped (d : Descriptors) : ℚ :=
  max 0 (min 1 (admetScoreRaw d))

/-- `calculate_advanced_admet` (`orchestrator/main.py`, lines 384-500).
The argument is `Option Descriptors`: `Option.none` covers the case where
`Chem.MolFromSmiles` fails (or any exception occurs while computing the
descriptors), in which case the function returns the empty dict, modelled
as `Option.none`. -/
def calculate_advanced_admet (d? : Option Descriptors) : Option AdmetProps :=
  match d? with
  | Option.none => Option.none
  | some d =>
    some
      { molecular_weight := pyRound d.mw 2
        logp := pyRound d.logp 2
        hbd := d.hbd
        hba := d.hba
        tpsa := pyRound d.tpsa 2
        rotatable_bonds := d.rotatable_bonds
        aromatic_rings := d.aromatic_rings
        molar_refractivity := pyRound d.molar_refractivity 2
        heavy_atoms := d.heavy_atoms
        qed := pyRound d.qed 3
        lipinski_violations := lipinskiViolations d
        lipinski_pass := lipinskiViolations d == 0
        bioavailability_score := pyRound (bioavailabilityScore d) 3
        bbb_penetration :=
          decide (d.mw < 400 ∧ d.tpsa < 60 ∧ (1:ℚ) ≤ d.logp ∧ d.logp ≤ 5)
        gi_absorption_high := decide (d.mw < 500 ∧ d.logp < 5 ∧ d.tpsa < 140)
        potential_toxicity := decide (lipinskiViolations d > 1)
        admet_score := pyRound (admetScoreClamped d) 3
        synthetic_accessibility := d.sa_score }

/-- Spec-side restatement: the number of Lipinski violations as the claim
words it (one each for MW over 500, LogP over 5, HBD over 5, HBA over 10). -/
def lipinskiViolationsSpec (d : Descriptors) : ℕ :=
  (if d.mw > 500 then 1 else 0) + (if d.logp > 5 then 1 else 0) +
  (if d.hbd > 5 then 1 else 0) + (if d.hba > 10 then 1 else 0)

/-- Spec-side restatement: the bioavailability score as the claim words it,
one minus the sum of the applicable deductions, clamped to the unit
interval. -/
def bioavailabilitySpec (d : Descriptors) : ℚ :=
  max 0 (min 1
    (1 - (if d.mw > 400 then 15/100 else 0)
       - (if d.tpsa < 20 ∨ d.tpsa > 130 then 15/100 else 0)
       - (if d.logp < 0 ∨ d.logp > 5 then 1/10 else 0)
       - (if d.hbd > 5 then 1/10 else 0)
       - (if d.hba > 10 then 1/10 else 0)))

/-- `ShapetheciasEvolution.ATOM_PALETTE` (`orchestrator/main.py`, line 137). -/
def ATOM_PALETTE : List String := ["C", "N", "O", "S", "F", "Cl", "Br"]

/-- An editable molecule, mirroring `Chem.RWMol`: element symbols indexed by
position, plus the single bonds the mutation loop adds. -/
structure Mol where
  atoms : List String
  bonds : List (ℕ × ℕ)
deriving DecidableEq

/-- The random draws one loop iteration of `mutate_at_atomic_level` can
consume, made explicit: `r` is `random.random()` in `[0,1)`, `paletteIdx`
the `random.choice` over the palette, `bondIdx` and `removeIdx` the two
`random.randint` results (reduced modulo their ranges). -/
structure Draw where
  r : ℚ
  paletteIdx : Fin 7
  bondIdx : ℕ
  removeIdx : ℕ

/-- The branch condition of one mutation step: `random.random() > 0.6`
(`orchestrator/main.py`, line 163) selects the ADD branch. -/
def chooseAdd (r : ℚ) : Bool := decide (r > 6/10)

/-- Modelled from the spec: the claim reads the ADD/REMOVE choice as a
uniform coin, probability 1/2 each, which on the unit draw is the
threshold 1/2. Spec-side definition, to be compared with `chooseAdd`. -/
def chooseAddClaim (r : ℚ) : Bool := decide (r > 1/2)

/-- `RWMol.RemoveAtom`: drop the atom, drop its bonds, shift higher atom
indices down by one. -/
def removeAtom (m : Mol) (i : ℕ) : Mol :=
  { atoms := m.atoms.eraseIdx i
    bonds := (m.bonds.filter (fun b => !(b.1 == i) && !(b.2 == i))).map
      (fun b => ((if b.1 > i then b.1 - 1 else b.1),
                 (if b.2 > i then b.2 - 1 else b.2))) }

/-- One iteration of the mutation loop of `mutate_at_atomic_level`
(`orchestrator/main.py`, lines 162-181), acting on the molecule and the
`mutations` history. ADD appends a palette atom and, when the molecule
then has more than one atom, a single bond from a random existing atom to
it; REMOVE deletes a random atom only when more than 4 atoms remain. -/
def applyMutationStep (st : Mol × List String) (dr : Draw) : Mol × List String :=
  if chooseAdd dr.r then
    let elem := ATOM_PALETTE.get ⟨dr.paletteIdx.val, dr.paletteIdx.isLt⟩
    let newIdx := st.1.atoms.length
    let grown : Mol := ⟨st.1.atoms ++ [elem], st.1.bonds⟩
    if grown.atoms.length > 1 then
      (⟨grown.atoms, grown.bonds ++ [(dr.bondIdx % (grown.atoms.length - 1), newIdx)]⟩,
        st.2 ++ ["Added atom: " ++ elem])
    else (grown, st.2)
  else
    if st.1.atoms.length > 4 then
      (removeAtom st.1 (dr.removeIdx % st.1.atoms.length), st.2 ++ ["Removed atom"])
    else st

/-- The external RDKit facilities `mutate_at_atomic_level` relies on:
`available` is whether the import succeeded, `parse` is
`Chem.MolFromSmiles`, and `toCanonicalSmiles` is the
`SanitizeMol`/`MolToSmiles` step, whose `.error` case stands for any
exception escaping the try block (message as `str(e)`). -/
structure RDKitEnv where
  available : Bool
  parse : String → Option Mol
  toCanonicalSmiles : Mol → Except String String

/-- `ShapetheciasEvolution.mutate_at_atomic_level`
(`orchestrator/main.py`, lines 139-191), with the random draws of the
`num_mutations` iterations passed explicitly. -/
def mutate_at_atomic_level (env : RDKitEnv) (draws : List Draw)
    (smiles : String) (num_mutations : ℕ) : String × List String :=
  if !env.available then (smiles, ["RDKit not available"])
  else
    match env.parse smiles with
    | Option.none => (smiles, ["Invalid SMILES"])
    | some mol =>
      let res := (draws.take num_mutations).foldl applyMutationStep (mol, [])
      match env.toCanonicalSmiles res.1 with
      | .ok s => (s, res.2)
      | .error e => (smiles, ["Mutation error: " ++ e.take 50])

/-- Encoding of a `calculate_advanced_admet` result back into a Python
dict value, as stored under the `properties` key by `score_variants`. -/
def propsToDict : Option AdmetProps → PyDict
  | Option.none => []
  | some p =>
    [("molecular_weight", .num p.molecular_weight), ("logp", .num p.logp),
     ("hbd", .int p.hbd), ("hba", .int p.hba), ("tpsa", .num p.tpsa),
     ("rotatable_bonds", .int p.rotatable_bonds),
     ("aromatic_rings", .int p.aromatic_rings),
     ("molar_refractivity", .num p.molar_refractivity),
     ("heavy_atoms", .int p.heavy_atoms), ("qed", .num p.qed),
     ("lipinski_violations", .int p.lipinski_violations),
     ("lipinski_pass", .bool p.lipinski_pass),
     ("bioavailability_score", .num p.bioavailability_score),
     ("bbb_penetration", .bool p.bbb_penetration),
     ("gi_absorption_high", .bool p.gi_absorption_high),
     ("potential_toxicity", .bool p.potential_toxicity),
     ("admet_score", .num p.admet_score),
     ("synthetic_accessibility", .num p.synthetic_accessibility)]

/-- Reading a dict value as a number where the code compares scores;
mirrors `x.get("admet_score", 0)` feeding a numeric comparison.  On the
lists this file sorts, the value is always numeric. -/
def valToNum : PyVal → ℚ
  | .int n => (n : ℚ)
  | .num q => q
  | .bool b => if b then 1 else 0
  | _ => 0

/-- The sort key of `score_variants`: `x.get("admet_score", 0)`. -/
def admetKey (m : PyDict) : ℚ := valToNum (dgetD m "admet_score" (.int 0))

/-- The body of the per-variant try block of
`ShapetheciasEvolution.score_variants` (`orchestrator/main.py`, lines
230-238).  `fCalc` is `calculate_advanced_admet` composed with the RDKit
descriptor oracle.  A missing `mutated_smiles` key raises `KeyError`,
caught by the bare except, which assigns the 0.3 bad score; a non-string
value makes `calculate_advanced_admet` return the empty dict, so the
0.5 default applies. -/
def assignScore (fCalc : String → Option AdmetProps) (v : PyDict) : PyDict :=
  match dget v "mutated_smiles" with
  | Option.none => dinsert v "admet_score" (.num (3/10))
  | some w =>
    let props : Option AdmetProps :=
      match w with
      | .str s => fCalc s
      | _ => Option.none
    let score : ℚ :=
      match props with
      | some p => p.admet_score
      | Option.none => 1/2
    dinsert (dinsert v "admet_score" (.num score)) "properties" (.dict (propsToDict props))

/-- `ShapetheciasEvolution.score_variants` (`orchestrator/main.py`, lines
222-242): score every variant, then `sorted(..., reverse=True)` by the
`admet_score` key (stable descending sort). -/
def score_variants (fCalc : String → Option AdmetProps) (variants : List PyDict) :
    List PyDict :=
  (variants.map (assignScore fCalc)).mergeSort
    (fun a b => decide (admetKey b ≤ admetKey a))

/-- `ShapetheciasEvolution.get_top_candidates` (`orchestrator/main.py`,
lines 244-250): `scored_variants[:num_top]`. -/
def get_top_candidates (scored_variants : List PyDict) (num_top : ℕ) : List PyDict :=
  scored_variants.take num_top

/-- `fastapi.HTTPException(status_code, detail)`. -/
structure HTTPException where
  status : ℕ
  detail : String
deriving DecidableEq

/-- `str(e)` for an `HTTPException`: starlette renders it as
`"{status_code}: {detail}"`. -/
def httpExcStr (e : HTTPException) : String :=
  toString e.status ++ ": " ++ e.detail

/-- An outgoing HTTP POST: target URL and JSON payload. -/
structure HttpRequest where
  url : String
  payload : PyDict
deriving Inhabited

/-- `SMARTCHEM_BASE` (`orchestrator/main.py`, line 52). -/
def SMARTCHEM_BASE : String := "http://localhost:8000"

/-- `BIONEMO_BASE` (`orchestrator/main.py`, line 53). -/
def BIONEMO_BASE : String := "http://localhost:5000"

/-- The POST issued by `stage_1_generate_molecules`
(`orchestrator/main.py`, lines 509-518). -/
def stage1Request (num_molecules : ℕ) (target_qed target_logp target_sas : ℚ) :
    HttpRequest :=
  { url := SMARTCHEM_BASE ++ "/generate/targeted"
    payload := [("num_molecules", .int num_molecules), ("target_qed", .num target_qed),
                ("target_logp", .num target_logp), ("target_sas", .num target_sas)] }

/-- The screening POST of `stage_2_validate_and_dock`
(`orchestrator/main.py`, lines 543-547). -/
def screenRequest (smiles : String) : HttpRequest :=
  { url := BIONEMO_BASE ++ "/screen"
    payload := [("query_smiles", .str smiles)] }

/-- The docking POST of `stage_2_validate_and_dock`
(`orchestrator/main.py`, lines 564-572). -/
def dockRequest (protein_pdb smiles : String) : HttpRequest :=
  { url := BIONEMO_BASE ++ "/predict/diffdock"
    payload := [("pdb_string", .str protein_pdb), ("smiles", .str smiles)] }

/-- The external world the pipeline talks to, as oracles.  For each HTTP
oracle, `.error` stands for an exception raised by the call (message as
`str(e)`); for `screen` and `dock`, `.ok` carries the response status and
the parsed JSON payload of interest.  `stage2Client` is an exception
raised by `stage_2_validate_and_dock` itself outside the per-molecule
loop (for example while creating the async client).  `descriptors` is the
RDKit oracle feeding `calculate_advanced_admet`. -/
structure PipelineEnv where
  smartchem : HttpRequest → Except String (List PyDict)
  stage2Client : Option String
  screen : HttpRequest → Except String (ℕ × List PyVal)
  dock : HttpRequest → Except String (ℕ × PyVal)
  descriptors : String → Option Descriptors

/-- `stage_1_generate_molecules` (`orchestrator/main.py`, lines 503-524):
on any exception from the POST (including `raise_for_status`), raise
`HTTPException(500, ...)`. -/
def stage_1_generate_molecules (env : PipelineEnv) (num_molecules : ℕ)
    (target_qed target_logp target_sas : ℚ) : Except HTTPException (List PyDict) :=
  match env.smartchem (stage1Request num_molecules target_qed target_logp target_sas) with
  | .ok mols => .ok mols
  | .error e => .error ⟨500, "Stage 1 Error (Smart-Chem Generation): " ++ e⟩

/-- The `mol.get("smiles", "")` read used by stages 2 and 3; non-string
values do not occur on the pipeline's dicts. -/
def molSmiles (mol : PyDict) : String :=
  match dget mol "smiles" with
  | some (.str s) => s
  | _ => ""

/-- The body of the per-molecule loop of `stage_2_validate_and_dock`
(`orchestrator/main.py`, lines 536-588).  `Option.none` means the molecule
was skipped (empty SMILES); an exception during screening appends the
original molecule with only a `docking_error` key. -/
def processMolecule (env : PipelineEnv) (protein_pdb : Option String)
    (mol : PyDict) : Option PyDict :=
  let smiles := molSmiles mol
  if smiles = "" then Option.none
  else
    match env.screen (screenRequest smiles) with
    | .error e => some (dmerge mol [("docking_error", .str e)])
    | .ok (status, ms) =>
      let found := if status == 200 then ms else []
      let base : PyDict :=
        [("smiles", .str smiles), ("similarity_matches", .int found.length),
         ("top_match", match found with | [] => .none | m :: _ => m),
         ("docking_attempted", .bool false)]
      let info : PyDict :=
        match protein_pdb with
        | Option.none => base
        | some pdb =>
          if pdb = "" then base
          else
            match env.dock (dockRequest pdb smiles) with
            | .ok (st, j) =>
              if st == 200 then
                dmerge base [("docking_attempted", .bool true), ("diffdock_result", j)]
              else base
            | .error e => dmerge base [("docking_error", .str e)]
      some (dmerge mol info)

/-- `stage_2_validate_and_dock` (`orchestrator/main.py`, lines 527-590). -/
def stage_2_validate_and_dock (env : PipelineEnv) (molecules : List PyDict)
    (protein_pdb : Option String) : Except String (List PyDict) :=
  match env.stage2Client with
  | some e => .error e
  | Option.none => .ok (molecules.filterMap (processMolecule env protein_pdb))

/-- The body of the per-molecule loop of `stage_3_predict_admet`
(`orchestrator/main.py`, lines 604-644): skip molecules with empty SMILES
or an empty ADMET dict, otherwise merge the molecule, the ADMET
properties, and the legacy compatibility fields. -/
def stage3Process (env : PipelineEnv) (mol : PyDict) : Option PyDict :=
  let smiles := molSmiles mol
  if smiles = "" then Option.none
  else
    match calculate_advanced_admet (env.descriptors smiles) with
    | Option.none => Option.none
    | some p =>
      some (dmerge (dmerge mol (propsToDict (some p)))
        [("admet_score", .num p.admet_score),
         ("toxicity_flag", .bool p.potential_toxicity),
         ("bbb_penetration", .bool p.bbb_penetration),
         ("bioavailability_score", .num p.bioavailability_score),
         ("synthetic_accessibility", .num p.synthetic_accessibility),
         ("descriptors", .dict
           [("mw", .num p.molecular_weight), ("logp", .num p.logp),
            ("hbd", .int p.hbd), ("hba", .int p.hba), ("tpsa", .num p.tpsa),
            ("rotatable_bonds", .int p.rotatable_bonds),
            ("aromatic_rings", .int p.aromatic_rings),
            ("heavy_atoms", .int p.heavy_atoms), ("qed", .num p.qed),
            ("gi_absorption", .str (if p.gi_absorption_high then "High" else "Low"))]),
         ("lipinski_violations", .int p.lipinski_violations),
         ("drug_likeness", .num p.qed)])

/-- `stage_3_predict_admet` (`orchestrator/main.py`, lines 593-646). -/
def stage_3_predict_admet (env : PipelineEnv) (molecules : List PyDict) :
    List PyDict :=
  molecules.filterMap (stage3Process env)

/-- `score_molecule` inside `rank_candidates` (`orchestrator/main.py`,
lines 656-660).  `len` is applied to `mol.get("similarity_matches", [])`
before the arithmetic runs, so an integer value there raises `TypeError`. -/
def score_molecule (mol : PyDict) : Except PyErr ℚ := do
  let similarity ← pyLen (dgetD mol "similarity_matches" (.list []))
  let admet ← toNum (dgetD mol "admet_score" (.int 0))
  let qed ← toNum (dgetD mol "qed" (.int 0))
  pure (admet * (5/10) + qed * (3/10) + ((min similarity 5 : ℤ) : ℚ) / 5 * (2/10))

/-- `rank_candidates` (`orchestrator/main.py`, lines 649-663): stable
descending sort by `score_molecule` (Python computes the key of every
element up front, so a raising key aborts the sort), then the top 10. -/
def rank_candidates (molecules : List PyDict) : Except PyErr (List PyDict) := do
  let keyed ← molecules.mapM (fun m => do
    let k ← score_molecule m
    pure (k, m))
  let sorted := keyed.mergeSort (fun a b => decide (b.1 ≤ a.1))
  pure ((sorted.map (fun p => p.2)).take 10)

/-- An exception escaping the `discover_drugs` endpoint. -/
inductive PyException where
  | http (e : HTTPException)
  | typeErr
  | indexErr
deriving DecidableEq

/-- The request model `GenerationRequest` (`orchestrator/main.py`,
lines 254-260). -/
structure GenerationRequest where
  target_name : String
  num_molecules : ℕ
  target_qed : ℚ
  target_logp : ℚ
  target_sas : ℚ
  protein_pdb : Option String

/-- The response model `PipelineResult` (`orchestrator/main.py`, lines
274-281); the timestamp is external state and not modelled. -/
structure PipelineResult where
  target : String
  generation_stage : PyDict
  docking_stage : PyDict
  admet_stage : PyDict
  top_candidates : List PyDict
  tools_used : List String

/-- One entry of `top_candidates` as built by `discover_drugs`
(`orchestrator/main.py`, lines 729-749), for the molecule at 0-based
position `i` of the ranked list. -/
def candidateDict (i : ℕ) (mol : PyDict) : PyDict :=
  [("rank", .int (i + 1)),
   ("smiles", dgetD mol "smiles" .none),
   ("qed", dgetD mol "qed" .none),
   ("admet_score", dgetD mol "admet_score" .none),
   ("bioavailability_score", dgetD mol "bioavailability_score" (.num (5/10))),
   ("synthetic_accessibility", dgetD mol "synthetic_accessibility" (.num 5)),
   ("drug_likeness", dgetD mol "drug_likeness" (.num (5/10))),
   ("descriptors", dgetD mol "descriptors" .none),
   ("toxicity_flag", dgetD mol "toxicity_flag" .none),
   ("bbb_penetration", dgetD mol "bbb_penetration" .none),
   ("lipinski_violations", dgetD mol "lipinski_violations" (.int 0)),
   ("aromatic_rings", dgetD mol "aromatic_rings" (.int 0)),
   ("rotatable_bonds", dgetD mol "rotatable_bonds" (.int 0)),
   ("heavy_atoms", dgetD mol "heavy_atoms" (.int 0)),
   ("lipinski_pass", dgetD mol "lipinski_pass" (.bool false)),
   ("gi_absorption",
     match dgetD mol "descriptors" (.dict []) with
     | .dict d => dgetD d "gi_absorption" (.str "Unknown")
     | _ => .str "Unknown")]

/-- The `tools_used` list of the response (`orchestrator/main.py`, lines
750-756), from the `GITHUB_TOOLS` table. -/
def toolsUsed : List String :=
  ["Smart-Chem VAE (GitHub: aspirin-code/smart-chem)",
   "BioNeMo DiffDock (GitHub: 3dmol/3Dmol.js)",
   "RDKit ADMET Scoring (GitHub: rdkit/rdkit)",
   "SA Score (GitHub: rdkit/rdkit)",
   "Morgan Fingerprints (GitHub: rdkit/rdkit)"]

/-- The tail of `discover_drugs` after the stage-2 fallback
(`orchestrator/main.py`, lines 699-760): run stage 3, rank, build the
response.  An uncaught `TypeError` from ranking propagates; the final
`ranked[0]` log line raises `IndexError` when the ranked list is empty,
so an empty ranking never returns a result. -/
def pipelineTail (env : PipelineEnv) (req : GenerationRequest)
    (generated docked : List PyDict) : Except PyException PipelineResult :=
  let with_admet := stage_3_predict_admet env docked
  match rank_candidates with_admet with
  | .error _ => .error .typeErr
  | .ok ranked =>
    match ranked with
    | [] => .error .indexErr
    | _ :: _ =>
      .ok
        { target := req.target_name
          generation_stage :=
            [("requested", .int req.num_molecules),
             ("generated", .int generated.length),
             ("properties_targeted", .dict
               [("qed", .num req.target_qed), ("logp", .num req.target_logp),
                ("sas", .num req.target_sas)])]
          docking_stage :=
            [("validated", .int docked.length),
             ("protein_provided", .bool req.protein_pdb.isSome)]
          admet_stage := [("predicted", .int with_admet.length)]
          top_candidates :=
            (ranked.take 5).enum.map (fun p => candidateDict p.1 p.2)
          tools_used := toolsUsed }

/-- The stage-2 try/except of `discover_drugs` (`orchestrator/main.py`,
lines 690-697): on any exception, continue with the unmodified generated
list. -/
def stage2Fallback (env : PipelineEnv) (generated : List PyDict)
    (protein_pdb : Option String) : List PyDict :=
  match stage_2_validate_and_dock env generated protein_pdb with
  | .ok d => d
  | .error _ => generated

/-- The `discover_drugs` endpoint (`orchestrator/main.py`, lines 666-760):
stage 1 aborts with `HTTPException(500, ...)` on failure; a stage-2
failure falls back to the unmodified generated list; then the tail runs. -/
def discover_drugs (env : PipelineEnv) (req : GenerationRequest) :
    Except PyException PipelineResult :=
  match stage_1_generate_molecules env req.num_molecules req.target_qed
      req.target_logp req.target_sas with
  | .error e => .error (.http ⟨500, "Generation failed: " ++ httpExcStr e⟩)
  | .ok generated =>
    pipelineTail env req generated (stage2Fallback env generated req.protein_pdb)

/-- The twenty amino-acid letters accepted by
`ESMFoldPredictor.predict_structure`. -/
def VALID_AAS : List Char := "ACDEFGHIKLMNPQRSTVWY".toList

/-- The external facilities of `ESMFoldPredictor`, as oracles: the RCSB
fetch, the local ESMFold model (behind the `has_esmfold` flag), and the
AlphaFold Database API (behind `use_api_fallback`).  Each returns
`Option.none` when the strategy fails or raises (all three call sites
swallow exceptions). -/
structure ESMFoldEnv where
  rcsb : String → Option PyDict
  has_esmfold : Bool
  esmfold : String → Option PyDict
  use_api_fallback : Bool
  alphafold_db : String → String → Option PyDict

/-- `ESMFoldPredictor._error_response`
(`orchestrator/esmfold_integration.py`, lines 356-363). -/
def errorResponse (msg : String) : PyDict :=
  [("status", .str "error"), ("error", .str msg),
   ("method", .str "None"), ("source", .str "Error")]

/-- One backbone ATOM record of the placeholder helix; the floating-point
helix geometry of `_generate_helix_pdb` is abstracted to the residue and
atom indices (the claims never inspect coordinates). -/
def helixAtomLine (serial : ℕ) (atomName : String) (residue : ℕ) : String :=
  "ATOM  " ++ toString serial ++ "  " ++ atomName ++ "  ALA A" ++ toString residue

/-- `_generate_helix_pdb` (`orchestrator/esmfold_integration.py`, lines
303-354): header lines, four backbone ATOM records per residue for the
first 1000 residues, and a padded END record. -/
def generateHelixPdb (sequence protein_name : String) : String :=
  let header :=
    ["TITLE    " ++ (if protein_name = "" then "Protein" else protein_name)
       ++ " - Demo Structure",
     "REMARK   This is a placeholder alpha-helix structure for visualization",
     "REMARK   Install ESMFold for real predictions: pip install fair-esm",
     "REMARK   Sequence (" ++ toString sequence.length ++ " aa): "
       ++ (sequence.take 50) ++ (if sequence.length > 50 then "..." else "")]
  let residues := (sequence.toList.take 1000).enum
  let atomLines := residues.flatMap (fun p =>
    (["N", "CA", "C", "O"].enum.map (fun q =>
      helixAtomLine (p.1 * 4 + q.1 + 1) q.2 (p.1 + 1))))
  String.intercalate "\n"
    (header ++ atomLines ++ ["END" ++ String.mk (List.replicate 77 ' ')])

/-- `ESMFoldPredictor._create_mock_structure`
(`orchestrator/esmfold_integration.py`, lines 278-301). -/
def create_mock_structure (sequence protein_name : String) : PyDict :=
  [("pdb", .str (generateHelixPdb sequence protein_name)),
   ("method", .str "Demo Placeholder"),
   ("mode", .str "Heuristic"),
   ("sequence_length", .int sequence.length),
   ("protein_name", .str protein_name),
   ("time_estimate", .str "Instant"),
   ("accuracy", .str "N/A (demo only)"),
   ("source", .str "Generated placeholder"),
   ("note", .str "Install ESMFold for real predictions: pip install fair-esm"),
   ("install_command", .str "pip install fair-esm torch"),
   ("status", .str "demo_mode")]

/-- Python `str.strip()`: drop leading and trailing whitespace. -/
def pyStrip (s : String) : String :=
  String.mk (((s.toList.dropWhile Char.isWhitespace).reverse.dropWhile
    Char.isWhitespace).reverse)

/-- Python `str.upper()` on ASCII, which is what amino-acid sequences
contain. -/
def pyUpper (s : String) : String := String.mk (s.toList.map Char.toUpper)

/-- The normalised sequence: `sequence.strip().upper()`. -/
def normalizeSeq (sequence : String) : String := pyUpper (pyStrip sequence)

/-- Whether every character of the normalised sequence is one of the
twenty amino-acid letters. -/
def validSeq (seq : String) : Bool :=
  seq.toList.all (fun c => VALID_AAS.contains c)

/-- The error message for invalid characters; Python renders the set of
offending characters, modelled as the list of them in sequence order. -/
def invalidAAMsg (seq : String) : String :=
  "Invalid amino acids: "
    ++ String.mk (seq.toList.filter (fun c => !(VALID_AAS.contains c)))

/-- `ESMFoldPredictor.predict_structure`
(`orchestrator/esmfold_integration.py`, lines 80-139): normalise, reject
empty or invalid sequences with an error-response dict, then try RCSB
(only when a protein name is given), local ESMFold, the AlphaFold DB, and
finally fall back to the mock structure. -/
def predict_structure (env : ESMFoldEnv) (sequence protein_name : String) : PyDict :=
  let seq := normalizeSeq sequence
  if seq.isEmpty then errorResponse "Empty sequence"
  else if !(validSeq seq) then errorResponse (invalidAAMsg seq)
  else
    match (if protein_name ≠ "" then env.rcsb protein_name else Option.none) with
    | some r => r
    | Option.none =>
      match (if env.has_esmfold then env.esmfold seq else Option.none) with
      | some r => r
      | Option.none =>
        match (if env.use_api_fallback then env.alphafold_db seq protein_name
               else Option.none) with
        | some r => r
        | Option.none => create_mock_structure seq protein_name

/-- Fixed descriptor values standing for what RDKit reports on a small
molecule; used to evaluate the pipeline on a concrete run. -/
def sampleDescriptors : Descriptors :=
  { mw := 46, logp := 0, hbd := 1, hba := 1, tpsa := 20, rotatable_bonds := 0
    aromatic_rings := 0, qed := 1, molar_refractivity := 13, heavy_atoms := 3
    sa_score := 2 }

/-- A sample environment: the generator returns one molecule, stage 2
raises while creating its client, and RDKit reports fixed descriptors. -/
def sampleEnv : PipelineEnv :=
  { smartchem := fun _ => .ok [[("smiles", .str "CCO")]]
    stage2Client := some "connection refused"
    screen := fun _ => .error "unused"
    dock := fun _ => .error "unused"
    descriptors := fun _ => some sampleDescriptors }

/-- A sample environment in which the generation service is down. -/
def failEnv : PipelineEnv :=
  { smartchem := fun _ => .error "boom"
    stage2Client := Option.none
    screen := fun _ => .error "unused"
    dock := fun _ => .error "unused"
    descriptors := fun _ => Option.none }

/-- A sample discovery request. -/
def sampleReq : GenerationRequest :=
  { target_name := "EBNA1", num_molecules := 1, target_qed := 8/10
    target_logp := 25/10, target_sas := 3, protein_pdb := Option.none }

theorem pyRound_nonneg {x : ℚ} (h : 0 ≤ x) (n : ℕ) : 0 ≤ pyRound x n := by
  unfold pyRound
  have h10 : (0:ℚ) < 10 ^ n := by positivity
  apply div_nonneg _ (le_of_lt h10)
  have : (0:ℤ) ≤ round (x * 10 ^ n) := by
    rw [round_eq]
    have : (0:ℚ) ≤ x * 10 ^ n + 1/2 := by positivity
    calc (0:ℤ) = ⌊(0:ℚ)⌋ := by simp
    _ ≤ ⌊x * 10 ^ n + 1/2⌋ := Int.floor_mono this
  exact_mod_cast this

theorem pyRound_le_one {x : ℚ} (h : x ≤ 1) (n : ℕ) : pyRound x n ≤ 1 := by
  unfold pyRound
  have h10 : (0:ℚ) < 10 ^ n := by positivity
  rw [div_le_one h10]
  have hle : round (x * 10 ^ n) ≤ round ((10:ℚ) ^ n) := by
    rw [round_eq, round_eq]
    apply Int.floor_mono
    have := mul_le_mul_of_nonneg_right h (le_of_lt h10)
    linarith
  have hr : round ((10:ℚ) ^ n) = (10 ^ n : ℤ) := by
    have : ((10 ^ n : ℤ) : ℚ) = (10:ℚ) ^ n := by push_cast; ring
    rw [← this, round_intCast]
  rw [hr] at hle
  exact_mod_cast hle

/-- C3: for every SMILES string that parses to a molecule (modelled by its
descriptor values), `calculate_advanced_admet` reports `admet_score` equal
to `round(clamp((1 - 0.2*v)*0.4 + 0.3*b + 0.3*qed, 0, 1), 3)` where `v` is
the number of Lipinski violations and `b` the clamped bioavailability. -/
theorem admet_score_is_fixed_formula (d : Descriptors) :
    (calculate_advanced_admet (some d)).map AdmetProps.admet_score =
      some (pyRound (max 0 (min 1
        ((1 - (2/10) * (lipinskiViolationsSpec d : ℚ)) * (4/10)
          + (3/10) * bioavailabilitySpec d + (3/10) * d.qed))) 3) := by
  have hbio : bioavailabilityScore d = bioavailabilitySpec d := by
    unfold bioavailabilityScore bioavailabilityRaw bioavailabilitySpec
    split_ifs <;> norm_num
  have hvio : lipinskiViolations d = lipinskiViolationsSpec d := rfl
  simp only [calculate_advanced_admet, Option.map_some]
  unfold admetScoreClamped admetScoreRaw
  rw [hbio, hvio]
  ring_nf
  rfl

/-- C9: `calculate_advanced_admet` either returns the empty dict (modelled
as `Option.none`) or a dict whose `admet_score` and `bioavailability_score`
both lie in the closed unit interval. -/
theorem admet_scores_in_unit_interval (d? : Option Descriptors) :
    calculate_advanced_admet d? = Option.none ∨
    ∃ p, calculate_advanced_admet d? = some p ∧
      0 ≤ p.admet_score ∧ p.admet_score ≤ 1 ∧
      0 ≤ p.bioavailability_score ∧ p.bioavailability_score ≤ 1 := by
  match d? with
  | Option.none => exact Or.inl rfl
  | some d =>
    refine Or.inr ⟨_, rfl, ?_, ?_, ?_, ?_⟩ <;>
      simp only [calculate_advanced_admet] <;>
      first
      | exact pyRound_nonneg (le_max_left _ _) 3
      | exact pyRound_le_one (max_le (by norm_num) (min_le_left _ _)) 3

/-- C4: scoring a generation assigns every variant an `admet_score` key,
returns a permutation of the (scored) input in non-increasing order of
that static score, and `get_top_candidates` returns exactly the first
`min 5 n` elements of the sorted list. -/
theorem score_variants_sorts_by_static_score
    (fCalc : String → Option AdmetProps) (variants : List PyDict) :
    (score_variants fCalc variants).Perm (variants.map (assignScore fCalc)) ∧
    (∀ m ∈ score_variants fCalc variants, (dget m "admet_score").isSome) ∧
    (score_variants fCalc variants).Pairwise (fun a b => admetKey b ≤ admetKey a) ∧
    get_top_candidates (score_variants fCalc variants) 5 =
      (score_variants fCalc variants).take 5 ∧
    (get_top_candidates (score_variants fCalc variants) 5).length =
      min 5 (score_variants fCalc variants).length := by
  refine ⟨List.mergeSort_perm _ _, ?_, ?_, rfl, ?_⟩
  · intro m hm
    rw [score_variants, List.mem_mergeSort, List.mem_map] at hm
    obtain ⟨v, _, rfl⟩ := hm
    rcases hv : dget v "mutated_smiles" with _ | w <;>
      simp only [assignScore, hv] <;> simp [dget, dinsert]
  · have h := @List.sorted_mergeSort PyDict
      (fun a b : PyDict => decide (admetKey b ≤ admetKey a))
      (fun a b c hab hbc => by
        simp only [decide_eq_true_eq] at *
        exact le_trans hbc hab)
      (fun a b => by
        simp only [Bool.or_eq_true, decide_eq_true_eq]
        exact le_total (admetKey b) (admetKey a))
      (variants.map (assignScore fCalc))
    exact h.imp (fun h => by simpa using h)
  · rw [get_top_candidates, List.length_take]

/-- C5 counterexample: the ADD/REMOVE choice is not a uniform 1/2 coin. At
the draw 0.55 the uniform-coin reading of the claim picks ADD, but the
code (threshold 0.6) picks REMOVE. -/
theorem mutation_choice_not_uniform_half :
    chooseAddClaim (11/20) = true ∧ chooseAdd (11/20) = false := by
  constructor
  · rw [chooseAddClaim, decide_eq_true_eq]
    norm_num
  · rw [chooseAdd, decide_eq_false_iff_not]
    norm_num

/-- C5 (amended): each mutation step chooses between ADD and REMOVE by the
threshold 0.6 on the uniform draw (so ADD has probability 2/5, REMOVE
3/5, not 1/2 each); ADD appends one atom drawn from the palette of seven
elements, connected by a single bond to a randomly chosen existing atom;
REMOVE deletes one randomly chosen atom only when the molecule has more
than 4 atoms; and no other kind of edit is performed. -/
theorem mutation_step_add_or_remove (st : Mol × List String) (dr : Draw) :
    (chooseAdd dr.r = true ↔ 6/10 < dr.r) ∧
    (6/10 < dr.r →
      (applyMutationStep st dr).1.atoms
          = st.1.atoms ++ [ATOM_PALETTE.get ⟨dr.paletteIdx.val, dr.paletteIdx.isLt⟩] ∧
      ATOM_PALETTE.get ⟨dr.paletteIdx.val, dr.paletteIdx.isLt⟩ ∈ ATOM_PALETTE ∧
      (1 ≤ st.1.atoms.length →
        (applyMutationStep st dr).1.bonds
            = st.1.bonds ++ [(dr.bondIdx % st.1.atoms.length, st.1.atoms.length)] ∧
        (applyMutationStep st dr).2
            = st.2 ++ ["Added atom: "
                ++ ATOM_PALETTE.get ⟨dr.paletteIdx.val, dr.paletteIdx.isLt⟩])) ∧
    (dr.r ≤ 6/10 →
      (4 < st.1.atoms.length →
        applyMutationStep st dr
            = (removeAtom st.1 (dr.removeIdx % st.1.atoms.length),
               st.2 ++ ["Removed atom"]) ∧
        (applyMutationStep st dr).1.atoms.length + 1 = st.1.atoms.length) ∧
      (st.1.atoms.length ≤ 4 → applyMutationStep st dr = st)) := by
  refine ⟨by rw [chooseAdd, decide_eq_true_eq], ?_, ?_⟩
  · intro hr
    have hc : chooseAdd dr.r = true := by rw [chooseAdd, decide_eq_true_eq]; exact hr
    refine ⟨?_, List.get_mem _ _ _, ?_⟩
    · simp only [applyMutationStep, hc, if_true]
      split <;> rfl
    · intro hlen
      have hgt : st.1.atoms.length + 1 > 1 := by omega
      simp only [applyMutationStep, hc, if_true, List.length_append, List.length_cons,
        List.length_nil]
      rw [if_pos (by simpa using hgt)]
      simp
  · intro hr
    have hc : chooseAdd dr.r = false := by
      rw [chooseAdd, decide_eq_false_iff_not]
      exact not_lt.mpr hr
    constructor
    · intro hbig
      have hres : applyMutationStep st dr
          = (removeAtom st.1 (dr.removeIdx % st.1.atoms.length),
             st.2 ++ ["Removed atom"]) := by
        simp only [applyMutationStep, hc, Bool.false_eq_true, if_false]
        rw [if_pos hbig]
      refine ⟨hres, ?_⟩
      rw [hres]
      simp only [removeAtom]
      have hpos : 0 < st.1.atoms.length := by omega
      have hlt : dr.removeIdx % st.1.atoms.length < st.1.atoms.length :=
        Nat.mod_lt _ hpos
      rw [List.length_eraseIdx_of_lt hlt]
      omega
    · intro hsmall
      simp only [applyMutationStep, hc, Bool.false_eq_true, if_false]
      rw [if_neg (by omega)]

/-- C8: `mutate_at_atomic_level` always returns a pair, and on each of its
failure paths (RDKit unavailable, unparseable SMILES, an exception escaping
the mutation/sanitisation block) it returns the input SMILES unchanged with
a one-element history; the output SMILES can differ from the input only on
the full success path. -/
theorem mutate_total_and_atomic_on_failure (env : RDKitEnv) (draws : List Draw)
    (smiles : String) (n : ℕ) :
    (env.available = false →
      mutate_at_atomic_level env draws smiles n = (smiles, ["RDKit not available"])) ∧
    (env.available = true → env.parse smiles = Option.none →
      mutate_at_atomic_level env draws smiles n = (smiles, ["Invalid SMILES"])) ∧
    (∀ mol e, env.available = true → env.parse smiles = some mol →
      env.toCanonicalSmiles ((draws.take n).foldl applyMutationStep (mol, [])).1
          = .error e →
      mutate_at_atomic_level env draws smiles n
          = (smiles, ["Mutation error: " ++ e.take 50])) ∧
    ((mutate_at_atomic_level env draws smiles n).1 ≠ smiles →
      ∃ mol s, env.available = true ∧ env.parse smiles = some mol ∧
        env.toCanonicalSmiles ((draws.take n).foldl applyMutationStep (mol, [])).1
            = .ok s) := by
  refine ⟨?_, ?_, ?_, ?_⟩
  · intro h
    rw [mutate_at_atomic_level, h]
    rfl
  · intro h hp
    rw [mutate_at_atomic_level, h]
    simp [hp]
  · intro mol e h hp he
    rw [mutate_at_atomic_level, h]
    simp [hp, he]
  · intro hne
    rcases hav : env.available with _ | _
    · exfalso
      apply hne
      rw [mutate_at_atomic_level, hav]
      rfl
    · rcases hp : env.parse smiles with _ | mol
      · exfalso
        apply hne
        rw [mutate_at_atomic_level, hav]
        simp [hp]
      · rcases hc : env.toCanonicalSmiles
            ((draws.take n).foldl applyMutationStep (mol, [])).1 with e | s
        · exfalso
          apply hne
          rw [mutate_at_atomic_level, hav]
          simp [hp, hc]
        · exact ⟨mol, s, rfl, hp ▸ rfl, hc⟩

/-- C10: the stage-1 POST goes to the fixed Smart-Chem URL and the stage-2
screening and docking POSTs go to fixed URLs under port 5000, for every
request parameter value. -/
theorem endpoints_hardcoded (n : ℕ) (q l s : ℚ) (smiles pdb : String) :
    (stage1Request n q l s).url = "http://localhost:8000/generate/targeted" ∧
    (screenRequest smiles).url = "http://localhost:5000/screen" ∧
    (dockRequest pdb smiles).url = "http://localhost:5000/predict/diffdock" :=
  ⟨rfl, rfl, rfl⟩

/-- C2: a stage-1 failure turns into `HTTPException(500, ...)` and aborts
the endpoint with status 500, while a stage-2 failure is caught and the
pipeline continues on the unmodified generated list. -/
theorem discover_drugs_failure_semantics (env : PipelineEnv) (req : GenerationRequest) :
    (∀ e, env.smartchem (stage1Request req.num_molecules req.target_qed
        req.target_logp req.target_sas) = .error e →
      stage_1_generate_molecules env req.num_molecules req.target_qed
          req.target_logp req.target_sas
        = .error ⟨500, "Stage 1 Error (Smart-Chem Generation): " ++ e⟩ ∧
      discover_drugs env req = .error (.http ⟨500, "Generation failed: "
        ++ httpExcStr ⟨500, "Stage 1 Error (Smart-Chem Generation): " ++ e⟩⟩)) ∧
    (∀ generated e2,
      stage_1_generate_molecules env req.num_molecules req.target_qed
          req.target_logp req.target_sas = .ok generated →
      stage_2_validate_and_dock env generated req.protein_pdb = .error e2 →
      discover_drugs env req = pipelineTail env req generated generated) := by
  constructor
  · intro e he
    have h1 : stage_1_generate_molecules env req.num_molecules req.target_qed
        req.target_logp req.target_sas
        = .error ⟨500, "Stage 1 Error (Smart-Chem Generation): " ++ e⟩ := by
      rw [stage_1_generate_molecules, he]
    refine ⟨h1, ?_⟩
    simp only [discover_drugs, h1]
  · intro generated e2 h1 h2
    simp only [discover_drugs, h1, stage2Fallback, h2]

theorem score_molecule_int_similarity {mol : PyDict} {n : ℤ}
    (h : dget mol "similarity_matches" = some (.int n)) :
    score_molecule mol = .error .typeError := by
  rw [score_molecule, dgetD, h]
  rfl

theorem mapM_score_error {mols : List PyDict} {mol : PyDict}
    (hm : mol ∈ mols) (he : score_molecule mol = .error .typeError) :
    mols.mapM (fun m => do
        let k ← score_molecule m
        pure (k, m))
      = (.error .typeError : Except PyErr (List (ℚ × PyDict))) := by
  induction mols with
  | nil => cases hm
  | cons a as ih =>
    rw [List.mapM_cons]
    rcases List.mem_cons.mp hm with rfl | hmem
    · rw [he]
      rfl
    · rcases hsa : score_molecule a with e | k
      · cases e
        rfl
      · rw [ih hmem]
        rfl

/-- C6: `rank_candidates` raises `TypeError` whenever some molecule binds
`similarity_matches` to an integer; the success path of the stage-2 loop
always produces exactly such an integer count; consequently ranking can
only complete when every molecule lacks an integer `similarity_matches`
binding (for example after the stage-2 fallback). -/
theorem rank_candidates_crashes_on_similarity_counts :
    (∀ mols (mol : PyDict) (n : ℤ), mol ∈ mols →
      dget mol "similarity_matches" = some (.int n) →
      rank_candidates mols = .error .typeError) ∧
    (∀ env mols pdb out (mol : PyDict),
      stage_2_validate_and_dock env mols pdb = .ok out → mol ∈ out →
      dget mol "docking_error" = Option.none →
      ∃ k : ℤ, dget mol "similarity_matches" = some (.int k)) ∧
    (∀ mols out, rank_candidates mols = .ok out →
      ∀ mol ∈ mols, ∀ n : ℤ, dget mol "similarity_matches" ≠ some (.int n)) := by
  have hcrash : ∀ (mols : List PyDict) (mol : PyDict) (n : ℤ), mol ∈ mols →
      dget mol "similarity_matches" = some (.int n) →
      rank_candidates mols = .error .typeError := by
    intro mols mol n hm hget
    rw [rank_candidates, mapM_score_error hm (score_molecule_int_similarity hget)]
    rfl
  refine ⟨hcrash, ?_, ?_⟩
  · intro env mols pdb out mol hout hm hde
    rw [stage_2_validate_and_dock] at hout
    rcases hc : env.stage2Client with _ | e
    · rw [hc] at hout
      simp only [Except.ok.injEq] at hout
      subst hout
      rw [List.mem_filterMap] at hm
      obtain ⟨src, _, hp⟩ := hm
      rw [processMolecule] at hp
      by_cases hs : molSmiles src = ""
      · rw [if_pos hs] at hp
        cases hp
      · rw [if_neg hs] at hp
        rcases hscr : env.screen (screenRequest (molSmiles src)) with e' | p
        · rw [hscr] at hp
          simp only [Option.some.injEq] at hp
          subst hp
          simp [dmerge, dget] at hde
        · rcases p with ⟨status, ms⟩
          rw [hscr] at hp
          simp only [Option.some.injEq] at hp
          subst hp
          refine ⟨(if status == 200 then ms else []).length, ?_⟩
          rcases pdb with _ | pdbs
          · simp [dmerge, dget]
          · by_cases hpe : pdbs = ""
            · simp [hpe, dmerge, dget]
            · rcases hdk : env.dock (dockRequest pdbs (molSmiles src)) with e3 | p3
              · simp [hpe, hdk, dmerge, dget]
              · rcases p3 with ⟨st3, j3⟩
                by_cases hst : st3 == 200
                · simp [hpe, hdk, hst, dmerge, dget]
                · simp [hpe, hdk, hst, dmerge, dget]
    · rw [hc] at hout
      cases hout
  · intro mols out hok mol hm n hget
    rw [hcrash mols mol n hm hget] at hok
    cases hok

theorem topCandidates_facts (ranked : List PyDict) :
    ((ranked.take 5).enum.map (fun p => candidateDict p.1 p.2)).length
        = min 5 ranked.length ∧
    (∀ i, (hi : i < ((ranked.take 5).enum.map
        (fun p => candidateDict p.1 p.2)).length) →
      dget (((ranked.take 5).enum.map (fun p => candidateDict p.1 p.2)).get ⟨i, hi⟩)
          "rank" = some (.int (i + 1))) := by
  constructor
  · simp [List.length_take]
  · intro i hi
    rw [List.get_eq_getElem]
    simp only [List.getElem_map, List.getElem_enum]
    simp [candidateDict, dget]

/-- C1: whenever `discover_drugs` returns a result, the stages ran in the
fixed order (stage 1, then stage 2 with its fallback, then stage 3, then
ranking) and `top_candidates` is built from the first five elements of
the ranked list in rank order. -/
theorem discover_drugs_pipeline_order (env : PipelineEnv) (req : GenerationRequest)
    (res : PipelineResult) (h : discover_drugs env req = Except.ok res) :
    ∃ generated ranked,
      stage_1_generate_molecules env req.num_molecules req.target_qed
          req.target_logp req.target_sas = Except.ok generated ∧
      rank_candidates (stage_3_predict_admet env
        (stage2Fallback env generated req.protein_pdb)) = Except.ok ranked ∧
      res.top_candidates = (ranked.take 5).enum.map (fun p => candidateDict p.1 p.2) ∧
      res.top_candidates.length = min 5 ranked.length ∧
      (∀ i, (hi : i < res.top_candidates.length) →
        dget (res.top_candidates.get ⟨i, hi⟩) "rank" = some (.int (i + 1))) := by
  rw [discover_drugs] at h
  split at h
  · cases h
  · rename_i generated heq1
    rw [pipelineTail] at h
    split at h
    · cases h
    · rename_i ranked heq4
      split at h
      · cases h
      · rename_i hd tl
        rw [Except.ok.injEq] at h
        subst h
        exact ⟨generated, hd :: tl, heq1, heq4, rfl,
          (topCandidates_facts (hd :: tl)).1, (topCandidates_facts (hd :: tl)).2⟩

theorem rank_candidates_singleton (m : PyDict) (k : ℚ)
    (h : score_molecule m = .ok k) :
    rank_candidates [m] = Except.ok [m] := by
  rw [rank_candidates]
  simp [List.mapM.loop, h, List.mergeSort]

theorem stage3_singleton_rank (env : PipelineEnv) (s : String) (hs : ¬(s = ""))
    (d : Descriptors) (hd : env.descriptors s = some d) :
    ∃ m, stage_3_predict_admet env [[("smiles", PyVal.str s)]] = [m] ∧
      rank_candidates [m] = Except.ok [m] := by
  have hsm : molSmiles [("smiles", PyVal.str s)] = s := rfl
  have hproc : ∃ m, stage3Process env [("smiles", PyVal.str s)] = some m := by
    rw [stage3Process, hsm, if_neg hs, hd]
    exact ⟨_, rfl⟩
  obtain ⟨m, hm⟩ := hproc
  have hscore : ∃ k, score_molecule m = .ok k := by
    rw [stage3Process, hsm, if_neg hs, hd] at hm
    simp only [calculate_advanced_admet, Option.some.injEq] at hm
    subst hm
    rw [score_molecule]
    simp only [dgetD, dget, dmerge, propsToDict, pyLen, toNum]
    exact ⟨_, rfl⟩
  obtain ⟨k, hk⟩ := hscore
  refine ⟨m, ?_, rank_candidates_singleton m k hk⟩
  rw [stage_3_predict_admet, List.filterMap]
  rw [hm]
  rfl

theorem discover_drugs_pipeline_order_witness :
    ∃ res generated ranked,
      discover_drugs sampleEnv sampleReq = Except.ok res ∧
      stage_1_generate_molecules sampleEnv sampleReq.num_molecules sampleReq.target_qed
          sampleReq.target_logp sampleReq.target_sas = Except.ok generated ∧
      rank_candidates (stage_3_predict_admet sampleEnv
        (stage2Fallback sampleEnv generated sampleReq.protein_pdb)) = Except.ok ranked ∧
      res.top_candidates = (ranked.take 5).enum.map (fun p => candidateDict p.1 p.2) ∧
      res.top_candidates.length = min 5 ranked.length ∧
      (∀ i, (hi : i < res.top_candidates.length) →
        dget (res.top_candidates.get ⟨i, hi⟩) "rank" = some (.int (i + 1))) := by
  obtain ⟨m, hm, hrank⟩ := stage3_singleton_rank sampleEnv "CCO" (by decide)
    sampleDescriptors rfl
  have h1 : stage_1_generate_molecules sampleEnv sampleReq.num_molecules
      sampleReq.target_qed sampleReq.target_logp sampleReq.target_sas
      = Except.ok [[("smiles", PyVal.str "CCO")]] := rfl
  have h2 : stage2Fallback sampleEnv [[("smiles", PyVal.str "CCO")]]
      sampleReq.protein_pdb = [[("smiles", PyVal.str "CCO")]] := rfl
  have hres : ∃ res, discover_drugs sampleEnv sampleReq = Except.ok res := by
    simp only [discover_drugs, h1, h2, pipelineTail, hm, hrank]
    exact ⟨_, rfl⟩
  obtain ⟨res, hres⟩ := hres
  obtain ⟨g, r, hg, hr, h3, h4, h5⟩ :=
    discover_drugs_pipeline_order sampleEnv sampleReq res hres
  exact ⟨res, g, r, hres, hg, hr, h3, h4, h5⟩

/-- C7: `predict_structure` is total in the embedding: an empty normalised
sequence or one with characters outside the twenty amino-acid letters
yields an error-response dict; when all three prediction strategies fail
or are unavailable the mock structure is returned; and every result is
one of an error response, a strategy result, or the mock structure. -/
theorem predict_structure_degrades_gracefully (env : ESMFoldEnv)
    (sequence protein_name : String) :
    ((normalizeSeq sequence).isEmpty = true →
      predict_structure env sequence protein_name = errorResponse "Empty sequence") ∧
    ((normalizeSeq sequence).isEmpty = false →
      validSeq (normalizeSeq sequence) = false →
      predict_structure env sequence protein_name
        = errorResponse (invalidAAMsg (normalizeSeq sequence))) ∧
    ((normalizeSeq sequence).isEmpty = false →
      validSeq (normalizeSeq sequence) = true →
      (protein_name ≠ "" → env.rcsb protein_name = Option.none) →
      (env.has_esmfold = true → env.esmfold (normalizeSeq sequence) = Option.none) →
      (env.use_api_fallback = true →
        env.alphafold_db (normalizeSeq sequence) protein_name = Option.none) →
      predict_structure env sequence protein_name
        = create_mock_structure (normalizeSeq sequence) protein_name) ∧
    (predict_structure env sequence protein_name = errorResponse "Empty sequence" ∨
     predict_structure env sequence protein_name
        = errorResponse (invalidAAMsg (normalizeSeq sequence)) ∨
     (∃ r, predict_structure env sequence protein_name = r ∧
        (env.rcsb protein_name = some r ∨
         env.esmfold (normalizeSeq sequence) = some r ∨
         env.alphafold_db (normalizeSeq sequence) protein_name = some r)) ∨
     predict_structure env sequence protein_name
        = create_mock_structure (normalizeSeq sequence) protein_name) := by
  rcases hb : (normalizeSeq sequence).isEmpty with _ | _
  · refine ⟨fun he => Bool.noConfusion he, ?_, ?_, ?_⟩
    · intro _ hv
      rw [predict_structure]
      simp only [hb, if_false, Bool.false_eq_true]
      rw [hv]
      rfl
    · intro _ hv h0 h1 h2
      rw [predict_structure]
      simp only [hb, Bool.false_eq_true, if_false, hv, if_true]
      have e0 : (if protein_name ≠ "" then env.rcsb protein_name else Option.none)
          = Option.none := by
        by_cases hn : protein_name = ""
        · rw [if_neg (by simp [hn])]
        · rw [if_pos hn, h0 hn]
      have e1 : (if env.has_esmfold then env.esmfold (normalizeSeq sequence)
          else Option.none) = Option.none := by
        rcases hesm : env.has_esmfold with _ | _
        · rfl
        · rw [if_pos rfl, h1 hesm]
      have e2 : (if env.use_api_fallback then
          env.alphafold_db (normalizeSeq sequence) protein_name
          else Option.none) = Option.none := by
        rcases hapi : env.use_api_fallback with _ | _
        · rfl
        · rw [if_pos rfl, h2 hapi]
      rw [e0, e1, e2]
      rfl
    · rcases hv : validSeq (normalizeSeq sequence) with _ | _
      · refine Or.inr (Or.inl ?_)
        rw [predict_structure]
        simp only [hb, Bool.false_eq_true, if_false, hv]
        rfl
      · rw [predict_structure]
        simp only [hb, Bool.false_eq_true, if_false, hv, if_true]
        rcases h0 : (if protein_name ≠ "" then env.rcsb protein_name
            else Option.none) with _ | r0
        · rcases h1 : (if env.has_esmfold then env.esmfold (normalizeSeq sequence)
              else Option.none) with _ | r1
          · rcases h2 : (if env.use_api_fallback then
                env.alphafold_db (normalizeSeq sequence) protein_name
                else Option.none) with _ | r2
            · exact Or.inr (Or.inr (Or.inr rfl))
            · refine Or.inr (Or.inr (Or.inl ⟨r2, rfl, Or.inr (Or.inr ?_)⟩))
              by_cases hapi : env.use_api_fallback = true
              · rw [if_pos hapi] at h2
                exact h2
              · rw [if_neg hapi] at h2
                cases h2
          · refine Or.inr (Or.inr (Or.inl ⟨r1, rfl, Or.inr (Or.inl ?_)⟩))
            by_cases hesm : env.has_esmfold = true
            · rw [if_pos hesm] at h1
              exact h1
            · rw [if_neg hesm] at h1
              cases h1
        · refine Or.inr (Or.inr (Or.inl ⟨r0, rfl, Or.inl ?_⟩))
          by_cases hn : protein_name ≠ ""
          · rw [if_pos hn] at h0
            exact h0
          · rw [if_neg hn] at h0
            cases h0
  · have hall : predict_structure env sequence protein_name
        = errorResponse "Empty sequence" := by
      rw [predict_structure]
      simp only [hb, if_true]
    exact ⟨fun _ => hall, fun he => Bool.noConfusion he,
      fun he => Bool.noConfusion he, Or.inl hall⟩

theorem predict_structure_witness :
    predict_structure ⟨fun _ => Option.none, false, fun _ => Option.none, false,
        fun _ _ => Option.none⟩ "MKT" ""
      = create_mock_structure (normalizeSeq "MKT") "" :=
  (predict_structure_degrades_gracefully ⟨fun _ => Option.none, false,
      fun _ => Option.none, false, fun _ _ => Option.none⟩ "MKT" "").2.2.1
    (by decide) (by decide) (fun _ => rfl) (fun _ => rfl) (fun _ => rfl)

theorem discover_drugs_failure_semantics_witness :
    stage_1_generate_molecules failEnv sampleReq.num_molecules sampleReq.target_qed
        sampleReq.target_logp sampleReq.target_sas
      = Except.error ⟨500, "Stage 1 Error (Smart-Chem Generation): " ++ "boom"⟩ ∧
    discover_drugs failEnv sampleReq = Except.error (.http ⟨500, "Generation failed: "
      ++ httpExcStr ⟨500, "Stage 1 Error (Smart-Chem Generation): " ++ "boom"⟩⟩) :=
  (discover_drugs_failure_semantics failEnv sampleReq).1 "boom" rfl

theorem rank_candidates_crash_witness :
    rank_candidates [[("similarity_matches", PyVal.int 3)]]
      = Except.error PyErr.typeError :=
  rank_candidates_crashes_on_similarity_counts.1
    [[("similarity_matches", PyVal.int 3)]] [("similarity_matches", PyVal.int 3)] 3
    (List.mem_singleton.mpr rfl) rfl

theorem score_variants_witness :
    (dget (assignScore (fun _ => Option.none) [("mutated_smiles", PyVal.str "CC")])
        "admet_score").isSome = true :=
  (score_variants_sorts_by_static_score (fun _ => Option.none)
      [[("mutated_smiles", PyVal.str "CC")]]).2.1
    (assignScore (fun _ => Option.none) [("mutated_smiles", PyVal.str "CC")])
    (by simp [score_variants, List.mem_mergeSort])

theorem mutation_step_add_or_remove_witness :
    applyMutationStep (⟨["C", "C", "C", "C", "C"], []⟩, []) ⟨1/2, 0, 0, 2⟩
        = (removeAtom ⟨["C", "C", "C", "C", "C"], []⟩ (2 % 5), ["Removed atom"]) ∧
    (applyMutationStep (⟨["C"], []⟩, []) ⟨7/10, 0, 0, 0⟩).1.atoms = ["C", "C"] := by
  constructor
  · exact (((mutation_step_add_or_remove (⟨["C", "C", "C", "C", "C"], []⟩, [])
      ⟨1/2, 0, 0, 2⟩).2.2 (by norm_num)).1 (by norm_num)).1
  · exact ((mutation_step_add_or_remove (⟨["C"], []⟩, [])
      ⟨7/10, 0, 0, 0⟩).2.1 (by norm_num)).1

theorem mutate_total_and_atomic_on_failure_witness :
    mutate_at_atomic_level ⟨false, fun _ => Option.none, fun _ => Except.error "x"⟩
        [] "CCO" 3 = ("CCO", ["RDKit not available"]) :=
  (mutate_total_and_atomic_on_failure ⟨false, fun _ => Option.none,
      fun _ => Except.error "x"⟩ [] "CCO" 3).1 rfl

end Ultrathink
